import Mathlib

/-!
Verification of `agent-max-desktop`: a shallow embedding of the two source
files, `src/electron/main/scripts/extract-icon.py` and
`src/api/models/feature_flags.py`, together with theorems settling the
specification's claims about them.

The Python script calls into macOS AppKit (via PyObjC) and the filesystem.
Those external capabilities are embedded as an explicit oracle record
`AppKitEnv`: each platform call is a field returning `Except PyExc α`,
where `PyExc` distinguishes `ImportError` (caught silently by the script)
from every other exception (caught with a diagnostic print).  The
filesystem is an association list from paths to byte lists; the error and
output streams are lists of printed lines.  The control flow of
`extract_icon` and of the `__main__` block is translated statement by
statement from the script.
-/

/-- A Python exception as observed by the script's two `except` clauses:
either an `ImportError` (the conditional-import failure, handled silently)
or any other exception carrying the message interpolated by
`print(f"Error: {e}", ...)`. -/
inductive PyExc where
  | importError : String → PyExc
  | other : String → PyExc
deriving DecidableEq

/-- An `NSImage` value as the script observes it: an opaque payload plus
the pixel dimensions AppKit reports for it.  Dimensions are integers since
the script passes the (unvalidated, possibly negative) Python int through. -/
structure NSImage where
  payload : Nat
  w : Int
  h : Int
deriving DecidableEq

/-- The `TIFFRepresentation()` data: opaque payload plus dimensions. -/
structure TiffData where
  payload : Nat
  w : Int
  h : Int
deriving DecidableEq

/-- An `NSBitmapImageRep`: opaque payload plus dimensions. -/
structure BitmapRep where
  payload : Nat
  w : Int
  h : Int
deriving DecidableEq

/-- PNG-encoded data produced by `representationUsingType_properties_`:
the raw bytes, whether the bytes form a valid PNG, and the pixel
dimensions the PNG records. -/
structure PngData where
  bytes : List Nat
  valid : Bool
  w : Int
  h : Int
deriving DecidableEq

/-- The filesystem visible to the script: an association list from paths
to file contents (byte lists); the most recent entry for a path shadows
older ones. -/
def FS : Type := List (String × List Nat)

instance : DecidableEq FS := by
  unfold FS
  infer_instance

/-- Contents of the file at `p`, `none` if no file exists there. -/
def FS.read (fs : FS) (p : String) : Option (List Nat) :=
  (fs.find? (fun e => e.1 = p)).map Prod.snd

/-- `open(p, 'wb')` semantics: create or truncate-then-rewrite the file at
`p` with contents `bs`. -/
def FS.write (fs : FS) (p : String) (bs : List Nat) : FS :=
  (p, bs) :: fs

/-- The external capabilities `extract-icon.py` consumes, as oracles.
Each field models one platform call site of the script; a call either
returns a value or raises a Python exception.  `importOk` models the
`from AppKit import ...` statement; `iconForFile` returns `none` when
`NSWorkspace` hands back a falsy icon (the `if not icon` branch);
`openExc`/`writeExc` give the exception raised, if any, by
`open(output_path, 'wb')` and `f.write(png_data)` for a given path. -/
structure AppKitEnv where
  importOk : Except PyExc Unit
  iconForFile : String → Except PyExc (Option NSImage)
  setSize : NSImage → Int → Except PyExc NSImage
  tiffRepresentation : NSImage → Except PyExc TiffData
  imageRepWithData : TiffData → Except PyExc BitmapRep
  pngRepresentation : BitmapRep → Except PyExc PngData
  openExc : String → Option String
  writeExc : String → Option String

/-- The `try` body of `extract_icon` (lines 14-32 of the script),
translated statement by statement: import, icon lookup, the falsy-icon
early `return False`, resize, TIFF encode, bitmap rep, PNG encode, and
the two-phase file write (`open` truncates, then `write` fills).  The
result pairs the `Except`-status of the body with the filesystem as it
stands when the body finishes or raises. -/
def extractBody (env : AppKitEnv) (app_path output_path : String) (size : Int)
    (fs : FS) : Except PyExc Bool × FS :=
  match env.importOk with
  | .error e => (.error e, fs)
  | .ok _ =>
    match env.iconForFile app_path with
    | .error e => (.error e, fs)
    | .ok none => (.ok false, fs)
    | .ok (some icon) =>
      match env.setSize icon size with
      | .error e => (.error e, fs)
      | .ok icon2 =>
        match env.tiffRepresentation icon2 with
        | .error e => (.error e, fs)
        | .ok tiff =>
          match env.imageRepWithData tiff with
          | .error e => (.error e, fs)
          | .ok rep =>
            match env.pngRepresentation rep with
            | .error e => (.error e, fs)
            | .ok png =>
              match env.openExc output_path with
              | some m => (.error (.other m), fs)
              | none =>
                match env.writeExc output_path with
                | some m => (.error (.other m), fs.write output_path [])
                | none => (.ok true, (fs.write output_path []).write output_path png.bytes)

/-- `extract_icon(app_path, output_path, size=64)` (script lines 13-38):
runs the `try` body, then applies the two `except` clauses.  `ImportError`
returns `False` silently; any other exception prints `Error: <msg>` to the
error stream and returns `False`.  The result is the returned boolean, the
lines printed to the error stream, and the final filesystem; the function
is total, so no exception ever propagates to the caller. -/
def extract_icon (env : AppKitEnv) (fs : FS) (app_path output_path : String)
    (size : Int := 64) : Bool × List String × FS :=
  match extractBody env app_path output_path size fs with
  | (.ok b, fs') => (b, [], fs')
  | (.error (.importError _), fs') => (false, [], fs')
  | (.error (.other m), fs') => (false, ["Error: " ++ m], fs')

/-- The value of the digit character `c`, `none` for a non-digit. -/
def digitVal (c : Char) : Option Nat :=
  if '0' ≤ c ∧ c ≤ '9' then some (c.toNat - '0'.toNat) else none

/-- Remaining digits of a Python base-10 int literal after the first
digit: digits, with single underscores permitted between digits only. -/
def pyDigits : List Char → Nat → Option Nat
  | [], acc => some acc
  | '_' :: rest, acc =>
    match rest with
    | [] => none
    | c :: rest2 =>
      match digitVal c with
      | some d => pyDigits rest2 (acc * 10 + d)
      | none => none
  | c :: rest, acc =>
    match digitVal c with
    | some d => pyDigits rest (acc * 10 + d)
    | none => none

/-- A nonempty run of digits (with interior underscores), the digit part
of a Python base-10 int literal. -/
def pyUnsigned (cs : List Char) : Option Nat :=
  match cs with
  | [] => none
  | c :: rest =>
    match digitVal c with
    | some d => pyDigits rest d
    | none => none

/-- Surrounding-whitespace stripping, the first step of Python's
`int(s)`. -/
def pyStrip (cs : List Char) : List Char :=
  ((cs.dropWhile Char.isWhitespace).reverse.dropWhile Char.isWhitespace).reverse

/-- Python's `int(s)` for base 10: strip surrounding whitespace, allow one
leading sign, then require a decimal digit run.  `none` models the
`ValueError` raised on any other string. -/
def pyInt (s : String) : Option Int :=
  match pyStrip s.toList with
  | '+' :: rest => (pyUnsigned rest).map Int.ofNat
  | '-' :: rest => (pyUnsigned rest).map (fun n => -(Int.ofNat n))
  | cs => (pyUnsigned cs).map Int.ofNat

/-- Outcome of running the script as `__main__`: either a normal
`sys.exit` with an exit code, the stdout lines, the stderr lines and the
final filesystem, or an exception left uncaught by the program (with the
stdout/stderr lines the program itself printed before raising). -/
inductive MainOutcome where
  | exit : Nat → List String → List String → FS → MainOutcome
  | uncaught : String → List String → List String → FS → MainOutcome
deriving DecidableEq

/-- The usage line printed on too few arguments (script line 42). -/
def usageMsg : String := "Usage: extract-icon.py <app_path> <output_path> [size]"

/-- The `__main__` block (script lines 40-53).  `argv` is `sys.argv`, the
script name included.  Fewer than three entries: usage to stderr, exit 1.
Otherwise the optional third positional argument is converted with `int`
(an uncaught `ValueError` on failure, before `extract_icon` is called),
defaulting to 64, and `extract_icon` decides between printing `OK` with
exit 0 and exiting 1. -/
def mainScript (env : AppKitEnv) (fs : FS) (argv : List String) : MainOutcome :=
  if argv.length < 3 then
    .exit 1 [] [usageMsg] fs
  else
    match (if 3 < argv.length then pyInt (argv.getD 3 "") else some 64) with
    | none =>
      .uncaught ("ValueError: invalid literal for int() with base 10: " ++ argv.getD 3 "")
        [] [] fs
    | some size =>
      match extract_icon env fs (argv.getD 1 "") (argv.getD 2 "") size with
      | (true, errs, fs') => .exit 0 ["OK"] errs fs'
      | (false, errs, fs') => .exit 1 [] errs fs'

/-- The validated `FeatureFlagsRolloutInfo` model
(src/api/models/feature_flags.py lines 12-18): four required booleans. -/
structure FeatureFlagsRolloutInfo where
  websocket_enabled : Bool
  evidence_validation_enabled : Bool
  billing_enabled : Bool
  hmac_enabled : Bool
deriving DecidableEq

/-- The raw input handed to `FeatureFlagsRolloutInfo` construction: each
declared field is either supplied (`some`) or omitted (`none`). -/
structure RolloutInput where
  websocket_enabled : Option Bool
  evidence_validation_enabled : Option Bool
  billing_enabled : Option Bool
  hmac_enabled : Option Bool
deriving DecidableEq

/-- Pydantic construction of `FeatureFlagsRolloutInfo`: every field is
declared `Field(...)`, i.e. required, so an omitted field is a
`ValidationError` (carried as the offending field's name). -/
def FeatureFlagsRolloutInfo.validate (i : RolloutInput) :
    Except String FeatureFlagsRolloutInfo :=
  match i.websocket_enabled with
  | none => .error "websocket_enabled: field required"
  | some ws =>
    match i.evidence_validation_enabled with
    | none => .error "evidence_validation_enabled: field required"
    | some ev =>
      match i.billing_enabled with
      | none => .error "billing_enabled: field required"
      | some bi =>
        match i.hmac_enabled with
        | none => .error "hmac_enabled: field required"
        | some hm =>
          .ok { websocket_enabled := ws, evidence_validation_enabled := ev,
                billing_enabled := bi, hmac_enabled := hm }

/-- The validated `FeatureFlagsResponse` model
(src/api/models/feature_flags.py lines 21-28): a required flag map, an
optional user id defaulting to `None`, and a required nested rollout
info. -/
structure FeatureFlagsResponse where
  flags : List (String × Bool)
  user_id : Option String
  rollout_info : FeatureFlagsRolloutInfo
deriving DecidableEq

/-- The raw input handed to `FeatureFlagsResponse` construction.  For
`user_id` the outer `Option` is presence of the key and the inner one the
supplied value (`None` is a legal explicit value for an `Optional[str]`
field). -/
structure ResponseInput where
  flags : Option (List (String × Bool))
  user_id : Option (Option String)
  rollout_info : Option RolloutInput
deriving DecidableEq

/-- Pydantic construction of `FeatureFlagsResponse`: `flags` and
`rollout_info` are `Field(...)`, i.e. required; `user_id` has
`default=None`, so an omitted key yields the value `none`; the nested
rollout info is validated recursively. -/
def FeatureFlagsResponse.validate (i : ResponseInput) :
    Except String FeatureFlagsResponse :=
  match i.flags with
  | none => .error "flags: field required"
  | some fl =>
    match i.rollout_info with
    | none => .error "rollout_info: field required"
    | some ri =>
      match FeatureFlagsRolloutInfo.validate ri with
      | .error m => .error m
      | .ok r =>
        .ok { flags := fl, user_id := i.user_id.getD none, rollout_info := r }

example : pyInt "64" = some 64 := by decide
example : pyInt "-5" = some (-5) := by decide
example : pyInt "abc" = none := by decide
example : pyInt " 12 " = some 12 := by decide
example : pyInt "1_0" = some 10 := by decide
example : pyInt "" = none := by decide
example : pyInt "+7" = some 7 := by decide

/-- The empty filesystem, used by concrete witnesses. -/
def fsEmpty : FS := []

/-- A concrete environment in which the PyObjC import fails (the platform
integration layer is absent). -/
def envAbsent : AppKitEnv :=
  { importOk := .error (.importError "No module named AppKit")
    iconForFile := fun _ => .ok none
    setSize := fun i _ => .ok i
    tiffRepresentation := fun i => .ok ⟨i.payload, i.w, i.h⟩
    imageRepWithData := fun t => .ok ⟨t.payload, t.w, t.h⟩
    pngRepresentation := fun b => .ok ⟨[b.payload], true, b.w, b.h⟩
    openExc := fun _ => none
    writeExc := fun _ => none }

/-- A concrete environment with AppKit available but where `iconForFile`
hands back a falsy icon for every path. -/
def envNoIcon : AppKitEnv :=
  { envAbsent with importOk := .ok () }

/-- A concrete environment in which every step of the pipeline succeeds:
icons resolve, `setSize_` really sets the requested dimensions, the
TIFF/bitmap/PNG conversions preserve them, the PNG encoder marks its
output valid, and the file write succeeds. -/
def envHappy : AppKitEnv :=
  { importOk := .ok ()
    iconForFile := fun _ => .ok (some ⟨0, 32, 32⟩)
    setSize := fun i s => .ok ⟨i.payload, s, s⟩
    tiffRepresentation := fun i => .ok ⟨i.payload, i.w, i.h⟩
    imageRepWithData := fun t => .ok ⟨t.payload, t.w, t.h⟩
    pngRepresentation := fun b => .ok ⟨[b.payload], true, b.w, b.h⟩
    openExc := fun _ => none
    writeExc := fun _ => none }

/-- A concrete environment in which the resize call raises an ordinary
(non-`ImportError`) exception. -/
def envBoom : AppKitEnv :=
  { envHappy with setSize := fun _ _ => .error (.other "boom") }

/-- Claim C4: when the platform integration layer cannot be loaded (its
conditional import raises `ImportError`), `extract_icon` returns `False` without
raising, prints nothing to the error stream, and leaves the filesystem
untouched. -/
theorem extract_icon_capability_absent (env : AppKitEnv) (fs : FS)
    (a o : String) (s : Int) (m : String)
    (h : env.importOk = .error (.importError m)) :
    extract_icon env fs a o s = (false, [], fs) := by
  simp [extract_icon, extractBody, h]

/-- Witness for C4: the capability-absent environment at concrete
arguments. -/
theorem extract_icon_capability_absent_witness :
    extract_icon envAbsent fsEmpty "/Applications/A.app" "/tmp/out.png" 64 =
      (false, [], fsEmpty) :=
  extract_icon_capability_absent envAbsent fsEmpty "/Applications/A.app"
    "/tmp/out.png" 64 "No module named AppKit" rfl

/-- Claim C3: when the icon-resolution oracle does not resolve an icon for
`bundle_path` (the `if not icon` branch, which is how a non-existent or
non-bundle path shows up to the script), `extract_icon` returns `False`
and the filesystem is returned exactly as it was: no file is created and
any pre-existing file at `output_path` is untouched. -/
theorem extract_icon_unresolved_leaves_fs (env : AppKitEnv) (fs : FS)
    (a o : String) (s : Int)
    (h : env.iconForFile a = .ok none) :
    (extract_icon env fs a o s).1 = false ∧
    (extract_icon env fs a o s).2.2 = fs := by
  unfold extract_icon extractBody
  cases h0 : env.importOk with
  | error e => cases e <;> simp
  | ok u => simp [h]

/-- Witness for C3: a pre-existing file at the output path is untouched
when the icon does not resolve. -/
theorem extract_icon_unresolved_leaves_fs_witness :
    (extract_icon envNoIcon [("/tmp/out.png", [7])] "/nope" "/tmp/out.png" 64).1
        = false ∧
    (extract_icon envNoIcon [("/tmp/out.png", [7])] "/nope" "/tmp/out.png" 64).2.2
        = [("/tmp/out.png", [7])] :=
  extract_icon_unresolved_leaves_fs envNoIcon [("/tmp/out.png", [7])] "/nope"
    "/tmp/out.png" 64 rfl

/-- Claim C7: the `size` parameter of `extract_icon` defaults to 64, and
the command-line wrapper invoked with exactly two positional arguments
(three `argv` entries) runs `extract_icon` with size 64. -/
theorem size_defaults_to_64 (env : AppKitEnv) (fs : FS) (p a o : String) :
    extract_icon env fs a o = extract_icon env fs a o 64 ∧
    mainScript env fs [p, a, o] =
      (match extract_icon env fs a o 64 with
       | (true, errs, fs') => MainOutcome.exit 0 ["OK"] errs fs'
       | (false, errs, fs') => MainOutcome.exit 1 [] errs fs') := by
  refine ⟨rfl, ?_⟩
  simp only [mainScript, List.length_cons, List.length_nil, List.getD]
  norm_num

/-- Claim C8: construction of the feature-flags response succeeds exactly
when every required field is supplied — `flags` and `rollout_info` on the
response, and the four booleans on the rollout-info object; `user_id`
plays no role in the condition, so omitting it is accepted whenever the
required fields are present. -/
theorem feature_flags_required_fields (i : ResponseInput) :
    (∃ r, FeatureFlagsResponse.validate i = .ok r) ↔
      (i.flags.isSome ∧
        match i.rollout_info with
        | none => False
        | some ri =>
            ri.websocket_enabled.isSome = true ∧
            ri.evidence_validation_enabled.isSome = true ∧
            ri.billing_enabled.isSome = true ∧
            ri.hmac_enabled.isSome = true) := by
  obtain ⟨fl, uid, ri⟩ := i
  cases fl <;> cases ri <;>
    try simp [FeatureFlagsResponse.validate]
  rename_i ri
  obtain ⟨w, e, b, hm⟩ := ri
  cases w <;> cases e <;> cases b <;> cases hm <;>
    simp [FeatureFlagsResponse.validate, FeatureFlagsRolloutInfo.validate]

/-- Claim C9: when the `user_id` key is omitted from the input, any
successfully constructed response carries `user_id = none` — the null
default is observable on the value. -/
theorem user_id_omitted_defaults_none (i : ResponseInput)
    (r : FeatureFlagsResponse)
    (h0 : i.user_id = none)
    (h : FeatureFlagsResponse.validate i = .ok r) :
    r.user_id = none := by
  obtain ⟨fl, uid, ri⟩ := i
  obtain rfl : uid = none := h0
  cases fl with
  | none => simp [FeatureFlagsResponse.validate] at h
  | some fl =>
    cases ri with
    | none => simp [FeatureFlagsResponse.validate] at h
    | some ri =>
      cases hv : FeatureFlagsRolloutInfo.validate ri with
      | error m => simp [FeatureFlagsResponse.validate, hv] at h
      | ok rr =>
        simp [FeatureFlagsResponse.validate, hv] at h
        rw [← h]

/-- Witness for C9: a concrete input with `user_id` omitted constructs
successfully and shows `user_id = none` on the result. -/
theorem user_id_omitted_defaults_none_witness :
    FeatureFlagsResponse.validate
        ⟨some [("websocket_execution", false)], none,
          some ⟨some false, some true, some false, some true⟩⟩ =
      .ok ⟨[("websocket_execution", false)], none, ⟨false, true, false, true⟩⟩ ∧
    (FeatureFlagsResponse.mk [("websocket_execution", false)] none
        ⟨false, true, false, true⟩).user_id = none :=
  ⟨rfl,
    user_id_omitted_defaults_none
      ⟨some [("websocket_execution", false)], none,
        some ⟨some false, some true, some false, some true⟩⟩
      ⟨[("websocket_execution", false)], none, ⟨false, true, false, true⟩⟩
      rfl rfl⟩

/-- Claim C1: `extract_icon` returns `True` exactly when the whole
pipeline ran and the PNG bytes ended up in the file at `output_path`; it
returns `False` whenever the icon does not resolve, the platform
integration is absent, or any call raises, and — being a total function —
it never propagates an exception to its caller. -/
theorem extract_icon_true_iff_written (env : AppKitEnv) (fs : FS)
    (a o : String) (s : Int) :
    (extract_icon env fs a o s).1 = true ↔
      (env.importOk = .ok () ∧
        ∃ icon, env.iconForFile a = .ok (some icon) ∧
        ∃ icon2, env.setSize icon s = .ok icon2 ∧
        ∃ t, env.tiffRepresentation icon2 = .ok t ∧
        ∃ r, env.imageRepWithData t = .ok r ∧
        ∃ p, env.pngRepresentation r = .ok p ∧
          env.openExc o = none ∧ env.writeExc o = none ∧
          (extract_icon env fs a o s).2.2.read o = some p.bytes) := by
  cases h0 : env.importOk with
  | error e => cases e <;> simp [extract_icon, extractBody, h0]
  | ok u =>
    cases u
    cases h1 : env.iconForFile a with
    | error e => cases e <;> simp [extract_icon, extractBody, h0, h1]
    | ok oi =>
      cases oi with
      | none => simp [extract_icon, extractBody, h0, h1]
      | some icon =>
        cases h2 : env.setSize icon s with
        | error e => cases e <;> simp [extract_icon, extractBody, h0, h1, h2]
        | ok icon2 =>
          cases h3 : env.tiffRepresentation icon2 with
          | error e => cases e <;> simp [extract_icon, extractBody, h0, h1, h2, h3]
          | ok t =>
            cases h4 : env.imageRepWithData t with
            | error e => cases e <;> simp [extract_icon, extractBody, h0, h1, h2, h3, h4]
            | ok r =>
              cases h5 : env.pngRepresentation r with
              | error e =>
                cases e <;> simp [extract_icon, extractBody, h0, h1, h2, h3, h4, h5]
              | ok p =>
                cases h6 : env.openExc o with
                | some m => simp [extract_icon, extractBody, h0, h1, h2, h3, h4, h5, h6]
                | none =>
                  cases h7 : env.writeExc o with
                  | some m =>
                    simp [extract_icon, extractBody, h0, h1, h2, h3, h4, h5, h6, h7]
                  | none =>
                    simp [extract_icon, extractBody, h0, h1, h2, h3, h4, h5, h6, h7,
                      FS.read, FS.write, List.find?]

/-- Claim C5: whenever some step of the pipeline — icon lookup, resize,
TIFF encoding, bitmap conversion, PNG encoding, opening the file, or
writing it — raises an exception other than capability absence, the
script prints `Error:` followed by the exception's message to the error
stream and returns `False`. -/
theorem extract_icon_reports_failure (env : AppKitEnv) (fs : FS)
    (a o : String) (s : Int) (m : String)
    (h0 : env.importOk = .ok ())
    (h : env.iconForFile a = .error (.other m) ∨
      ∃ icon, env.iconForFile a = .ok (some icon) ∧
        (env.setSize icon s = .error (.other m) ∨
          ∃ icon2, env.setSize icon s = .ok icon2 ∧
            (env.tiffRepresentation icon2 = .error (.other m) ∨
              ∃ t, env.tiffRepresentation icon2 = .ok t ∧
                (env.imageRepWithData t = .error (.other m) ∨
                  ∃ r, env.imageRepWithData t = .ok r ∧
                    (env.pngRepresentation r = .error (.other m) ∨
                      ∃ p, env.pngRepresentation r = .ok p ∧
                        (env.openExc o = some m ∨
                          (env.openExc o = none ∧ env.writeExc o = some m))))))) :
    (extract_icon env fs a o s).1 = false ∧
    (extract_icon env fs a o s).2.1 = ["Error: " ++ m] := by
  rcases h with h1 |
    ⟨icon, h1, h2 |
      ⟨icon2, h2, h3 |
        ⟨t, h3, h4 |
          ⟨r, h4, h5 |
            ⟨p, h5, h6 | ⟨h6, h7⟩⟩⟩⟩⟩⟩
  · simp [extract_icon, extractBody, h0, h1]
  · simp [extract_icon, extractBody, h0, h1, h2]
  · simp [extract_icon, extractBody, h0, h1, h2, h3]
  · simp [extract_icon, extractBody, h0, h1, h2, h3, h4]
  · simp [extract_icon, extractBody, h0, h1, h2, h3, h4, h5]
  · simp [extract_icon, extractBody, h0, h1, h2, h3, h4, h5, h6]
  · simp [extract_icon, extractBody, h0, h1, h2, h3, h4, h5, h6, h7]

/-- Witness for C5: a concrete environment whose resize call raises
`boom`; the script reports `Error: boom` and returns `False`. -/
theorem extract_icon_reports_failure_witness :
    (extract_icon envBoom fsEmpty "/Applications/A.app" "/tmp/out.png" 64).1
        = false ∧
    (extract_icon envBoom fsEmpty "/Applications/A.app" "/tmp/out.png" 64).2.1
        = ["Error: " ++ "boom"] :=
  extract_icon_reports_failure envBoom fsEmpty "/Applications/A.app"
    "/tmp/out.png" 64 "boom" rfl
    (Or.inr ⟨⟨0, 32, 32⟩, rfl, Or.inl rfl⟩)

/-- Claim C2: when the platform resolves an icon for the bundle path and
every pipeline step succeeds with its documented behavior — `setSize_`
sets the requested dimensions, the TIFF/bitmap/PNG conversions preserve
them, the encoder emits a valid PNG, and the output path is writable —
`extract_icon` returns `True` and afterwards the file at `output_path`
exists and holds the encoder's bytes: a valid PNG of dimensions exactly
`size × size`. -/
theorem extract_icon_success_writes_png (env : AppKitEnv) (fs : FS)
    (a o : String) (s : Int) (icon icon2 : NSImage) (t : TiffData)
    (r : BitmapRep) (p : PngData)
    (h0 : env.importOk = .ok ())
    (h1 : env.iconForFile a = .ok (some icon))
    (h2 : env.setSize icon s = .ok icon2)
    (h2w : icon2.w = s) (h2h : icon2.h = s)
    (h3 : env.tiffRepresentation icon2 = .ok t)
    (h3w : t.w = icon2.w) (h3h : t.h = icon2.h)
    (h4 : env.imageRepWithData t = .ok r)
    (h4w : r.w = t.w) (h4h : r.h = t.h)
    (h5 : env.pngRepresentation r = .ok p)
    (h5v : p.valid = true) (h5w : p.w = r.w) (h5h : p.h = r.h)
    (h6 : env.openExc o = none) (h7 : env.writeExc o = none) :
    (extract_icon env fs a o s).1 = true ∧
    (extract_icon env fs a o s).2.2.read o = some p.bytes ∧
    p.valid = true ∧ p.w = s ∧ p.h = s := by
  refine ⟨?_, ?_, h5v, by rw [h5w, h4w, h3w, h2w], by rw [h5h, h4h, h3h, h2h]⟩
  · simp [extract_icon, extractBody, h0, h1, h2, h3, h4, h5, h6, h7]
  · simp [extract_icon, extractBody, h0, h1, h2, h3, h4, h5, h6, h7,
      FS.read, FS.write, List.find?]

/-- Witness for C2: the fully successful environment at concrete
arguments; the resulting file holds a valid 64 by 64 PNG. -/
theorem extract_icon_success_writes_png_witness :
    (extract_icon envHappy fsEmpty "/Applications/A.app" "/tmp/out.png" 64).1
        = true ∧
    (extract_icon envHappy fsEmpty "/Applications/A.app" "/tmp/out.png" 64).2.2.read
        "/tmp/out.png" = some (PngData.mk [0] true 64 64).bytes ∧
    (PngData.mk [0] true 64 64).valid = true ∧
    (PngData.mk [0] true 64 64).w = 64 ∧ (PngData.mk [0] true 64 64).h = 64 :=
  extract_icon_success_writes_png envHappy fsEmpty "/Applications/A.app"
    "/tmp/out.png" 64 ⟨0, 32, 32⟩ ⟨0, 64, 64⟩ ⟨0, 64, 64⟩ ⟨0, 64, 64⟩
    ⟨[0], true, 64, 64⟩ rfl rfl rfl rfl rfl rfl rfl rfl rfl rfl rfl rfl rfl rfl
    rfl rfl rfl

/-- Claim C6: the command-line wrapper prints usage to the error stream
and exits 1 when `sys.argv` has fewer than three entries (fewer than two
positional arguments); when the size argument converts and extraction
succeeds it prints exactly `OK` to stdout and exits 0; when extraction
fails it exits 1 with nothing on stdout. -/
theorem mainScript_cli_behavior (env : AppKitEnv) (fs : FS)
    (argv : List String) :
    (argv.length < 3 → mainScript env fs argv = .exit 1 [] [usageMsg] fs) ∧
    (∀ (sz : Int) (errs : List String) (fs' : FS), 3 ≤ argv.length →
      (if 3 < argv.length then pyInt (argv.getD 3 "") else some 64) = some sz →
      (extract_icon env fs (argv.getD 1 "") (argv.getD 2 "") sz = (true, errs, fs') →
        mainScript env fs argv = .exit 0 ["OK"] errs fs') ∧
      (extract_icon env fs (argv.getD 1 "") (argv.getD 2 "") sz = (false, errs, fs') →
        mainScript env fs argv = .exit 1 [] errs fs')) := by
  constructor
  · intro h
    simp [mainScript, h]
  · intro sz errs fs' hlen hsz
    have hnlt : ¬ argv.length < 3 := not_lt.mpr hlen
    constructor
    · intro hok
      simp [List.getD] at hsz hok
      simp [mainScript, hnlt, hsz, hok]
    · intro hfail
      simp [List.getD] at hsz hfail
      simp [mainScript, hnlt, hsz, hfail]

/-- Witness for C6: usage on one argument; `OK` with exit 0 on a
successful extraction; exit 1 on a failed one. -/
theorem mainScript_cli_behavior_witness :
    mainScript envNoIcon fsEmpty ["extract-icon.py"] =
      .exit 1 [] [usageMsg] fsEmpty ∧
    mainScript envHappy fsEmpty ["extract-icon.py", "/Applications/A.app", "/tmp/out.png"] =
      .exit 0 ["OK"] [] [("/tmp/out.png", [0]), ("/tmp/out.png", [])] ∧
    mainScript envNoIcon fsEmpty ["extract-icon.py", "/Applications/A.app", "/tmp/out.png"] =
      .exit 1 [] [] fsEmpty :=
  ⟨(mainScript_cli_behavior envNoIcon fsEmpty ["extract-icon.py"]).1 (by decide),
    ((mainScript_cli_behavior envHappy fsEmpty
        ["extract-icon.py", "/Applications/A.app", "/tmp/out.png"]).2 64 []
        [("/tmp/out.png", [0]), ("/tmp/out.png", [])] (by decide) rfl).1 rfl,
    ((mainScript_cli_behavior envNoIcon fsEmpty
        ["extract-icon.py", "/Applications/A.app", "/tmp/out.png"]).2 64 []
        fsEmpty (by decide) rfl).2 rfl⟩

/-- Claim C10: the wrapper does not validate the optional size argument.
With a third positional argument present, a string `int` rejects makes the
run die on an uncaught `ValueError` — before `extract_icon` runs, so for
every environment the filesystem is untouched and neither stream carries
anything (in particular no usage message) — while every string `int`
accepts, zero and negative values included, is passed straight to
`extract_icon`. -/
theorem mainScript_size_unvalidated (env : AppKitEnv) (fs : FS)
    (p a o s3 : String) :
    (pyInt s3 = none →
      mainScript env fs [p, a, o, s3] =
        .uncaught ("ValueError: invalid literal for int() with base 10: " ++ s3)
          [] [] fs) ∧
    (∀ n : Int, pyInt s3 = some n →
      mainScript env fs [p, a, o, s3] =
        (match extract_icon env fs a o n with
         | (true, errs, fs') => MainOutcome.exit 0 ["OK"] errs fs'
         | (false, errs, fs') => MainOutcome.exit 1 [] errs fs')) ∧
    pyInt "0" = some 0 ∧ pyInt "-7" = some (-7) := by
  refine ⟨?_, ?_, by decide, by decide⟩
  · intro h
    simp [mainScript, List.getD, h]
  · intro n h
    simp [mainScript, List.getD, h]

/-- Witness for C10: `abc` dies on the uncaught conversion error with the
filesystem untouched; `-7` is passed through to `extract_icon`. -/
theorem mainScript_size_unvalidated_witness :
    mainScript envNoIcon fsEmpty ["extract-icon.py", "/Applications/A.app", "/tmp/out.png", "abc"] =
      .uncaught ("ValueError: invalid literal for int() with base 10: " ++ "abc")
        [] [] fsEmpty ∧
    mainScript envNoIcon fsEmpty ["extract-icon.py", "/Applications/A.app", "/tmp/out.png", "-7"] =
      .exit 1 [] [] fsEmpty :=
  ⟨(mainScript_size_unvalidated envNoIcon fsEmpty "extract-icon.py"
      "/Applications/A.app" "/tmp/out.png" "abc").1 (by decide),
    ((mainScript_size_unvalidated envNoIcon fsEmpty "extract-icon.py"
      "/Applications/A.app" "/tmp/out.png" "-7").2.1 (-7) (by decide)).trans rfl⟩
